import Mathlib

/-
Verification of the WorksheetBot core: the worksheet text parser embedded in
render_html_worksheet and in the Generate Worksheet branch of the Streamlit UI
(src/autism_worksheet_agent.py), and the bounded session-history store
(get_session_history / save_session_history, identical in
src/autism_worksheet_agent.py and src/test_agent_1.py).

Python string operations are embedded at the character level over String.data
so that every definition reduces in the kernel:
  str.upper        -> pyUpper        (maps Char.toUpper over the characters)
  str.strip()      -> pystrip        (drops ASCII whitespace at both ends)
  str.startswith   -> pyStartsWith   (list prefix test)
  s.split(sep,1)[-1] for sep = colon -> splitColonOnceLast
  str.lstrip(set)  -> dropWhile over the character set
  str.splitlines   -> splitLines     (split on the newline character; a
                      trailing empty piece is inert for both parsers)
Dictionaries with insertion order are embedded as association lists.
-/

namespace WorksheetBot

/-- A chat message as persisted by the store: role plus content.  The
serialization in save_session_history (model_dump / dict / pass-through)
losslessly captures both fields, so it is embedded as the identity. -/
structure Msg where
  role : String
  content : String
deriving DecidableEq, Repr

/-- Insertion-ordered string-keyed mapping, as a Python dict. -/
abbrev Assoc (β : Type) := List (String × β)

/-- Lookup in an insertion-ordered mapping. -/
def alookup {β : Type} : Assoc β → String → Option β
  | [], _ => none
  | (k2, v) :: rest, k => if k2 = k then some v else alookup rest k

/-- Python dict assignment d[k] = v: update in place if the key is present,
otherwise append at the end (insertion order). -/
def aset {β : Type} : Assoc β → String → β → Assoc β
  | [], k, v => [(k, v)]
  | (k2, v2) :: rest, k, v =>
      if k2 = k then (k2, v) :: rest else (k2, v2) :: aset rest k v

/-- Python d[k].append(q) for a dict of lists; the callers only invoke it
with a key that is present. -/
def dictAppend : Assoc (List String) → String → String → Assoc (List String)
  | [], _, _ => []
  | (k2, v) :: rest, k, q =>
      if k2 = k then (k2, v ++ [q]) :: rest else (k2, v) :: dictAppend rest k q

/-- Python d.setdefault(k, []): insert an empty list at the end if the key is
absent, leave the dict unchanged otherwise. -/
def setdefaultNil : Assoc (List String) → String → Assoc (List String)
  | [], k => [(k, [])]
  | (k2, v) :: rest, k =>
      if k2 = k then (k2, v) :: rest else (k2, v) :: setdefaultNil rest k

/-- The key k has no entry in the mapping. -/
def NoKey {β : Type} (m : Assoc β) (k : String) : Prop := ∀ p ∈ m, p.1 ≠ k

/- ------------------------------------------------------------------
Session history store (get_session_history / save_session_history).
------------------------------------------------------------------ -/

/-- State of the persisted file for one session, as get_session_history
distinguishes it: a file whose stripped content is empty, a file whose
content json.loads parses into a list of messages, and a non-empty file that
json.loads cannot parse into a message list (load raises). -/
inductive FileContent where
  | blank
  | json (msgs : List Msg)
  | malformed
deriving DecidableEq, Repr

/-- The process-wide chat_history_store mapping session ids to message
lists (InMemoryChatMessageHistory holds its messages in order). -/
abbrev Cache := Assoc (List Msg)

/-- The durable store: one entry per existing file, keyed by filename. -/
abbrev Files := Assoc FileContent

/-- Errors the store operations raise: json.loads failing on non-empty
content, and the KeyError from indexing chat_history_store. -/
inductive StoreError where
  | corruptHistory
  | keyError
deriving DecidableEq, Repr

/-- filename = f-string of session_id followed by _history.json. -/
def historyFilename (sid : String) : String := sid ++ "_history.json"

/-- Python list slicing xs[-n:]: the last n elements (all of them when there
are fewer than n), oldest first. -/
def lastN (n : Nat) (l : List α) : List α := l.drop (l.length - n)

/-- get_session_history: return the cached history when present; otherwise
hydrate from the file (last 20 messages of a parsed file, fresh empty history
when the file is absent or blank), cache it, and return it.  A malformed
non-empty file makes json.loads raise before the cache assignment. -/
def get_session_history (sid : String) (store : Cache) (files : Files) :
    Except StoreError (List Msg × Cache) :=
  match alookup store sid with
  | some h => .ok (h, store)
  | none =>
      match alookup files (historyFilename sid) with
      | none => .ok ([], aset store sid [])
      | some .blank => .ok ([], aset store sid [])
      | some (.json msgs) => .ok (lastN 20 msgs, aset store sid (lastN 20 msgs))
      | some .malformed => .error .corruptHistory

/-- save_session_history: look the session up in chat_history_store (raising
KeyError before any file is opened when it is absent), serialize every
message losslessly, and overwrite the session file. -/
def save_session_history (sid : String) (store : Cache) (files : Files) :
    Except StoreError Files :=
  match alookup store sid with
  | none => .error .keyError
  | some msgs => .ok (aset files (historyFilename sid) (.json msgs))

/- ------------------------------------------------------------------
Python string primitives, embedded at the character level.
------------------------------------------------------------------ -/

/-- str.upper, for the ASCII text the headers use. -/
def pyUpper (s : String) : String := String.mk (s.data.map Char.toUpper)

/-- str.strip() with no argument: remove ASCII whitespace from both ends. -/
def pystrip (s : String) : String :=
  String.mk (((s.data.dropWhile Char.isWhitespace).reverse.dropWhile
    Char.isWhitespace).reverse)

/-- str.startswith. -/
def pyStartsWith (s p : String) : Bool := p.data.isPrefixOf s.data

/-- Whether the line contains a colon. -/
def hasColon (l : String) : Bool := l.data.contains ':'

/-- Python l.split(colon, 1)[-1]: everything after the first colon when one
is present, the whole string otherwise. -/
def splitColonOnceLast (l : String) : String :=
  if hasColon l then String.mk ((l.data.dropWhile (fun c => c != ':')).tail)
  else l

/-- The value a header line contributes: l.split(colon, 1)[-1].strip(). -/
def afterColonTrim (l : String) : String := pystrip (splitColonOnceLast l)

/-- Membership in the lstrip character set of dash, star, the ten digits,
period and space. -/
def isMarkerChar (c : Char) : Bool :=
  c == '-' || c == '*' || c.isDigit || c == '.' || c == ' '

/-- The question-line cleaning both parsers apply:
l.lstrip(markers).strip(). -/
def stripMarkers (l : String) : String :=
  pystrip (String.mk (l.data.dropWhile isMarkerChar))

/-- Split a character list at every occurrence of the separator. -/
def splitOnChar (c : Char) : List Char → List (List Char)
  | [] => [[]]
  | ch :: rest =>
      if ch = c then [] :: splitOnChar c rest
      else
        match splitOnChar c rest with
        | [] => [[ch]]
        | g :: gs => (ch :: g) :: gs

/-- text.splitlines for newline-separated text (a trailing empty piece is
dropped by Python but is inert in both parsers, which skip blank lines). -/
def splitLines (text : String) : List String :=
  (splitOnChar (Char.ofNat 10) text.data).map String.mk

/- ------------------------------------------------------------------
Worksheet text parser of render_html_worksheet.
------------------------------------------------------------------ -/

/-- The classification both parsers perform on a line: the six recognized
header prefixes tested in source order on the uppercased line, with every
remaining line a potential question. -/
inductive LineKind where
  | title | instr | tips | partA | partB | partC | other
deriving DecidableEq, Repr

/-- The if-elif chain of both parsers: case-insensitive prefix match against
TITLE, INSTRUCTIONS, PARENT TIPS, PART A, PART B, PART C, in that order. -/
def classify (l : String) : LineKind :=
  let upper := pyUpper l
  if pyStartsWith upper "TITLE" then .title
  else if pyStartsWith upper "INSTRUCTIONS" then .instr
  else if pyStartsWith upper "PARENT TIPS" then .tips
  else if pyStartsWith upper "PART A" then .partA
  else if pyStartsWith upper "PART B" then .partB
  else if pyStartsWith upper "PART C" then .partC
  else .other

/-- Loop state of render_html_worksheet: three scalar fields, the sections
dict, and the current section cursor (current_key, initially None). -/
structure WS where
  title : String
  instructions : String
  tips : String
  sections : Assoc (List String)
  currentKey : Option String
deriving DecidableEq, Repr

/-- One iteration of the render_html_worksheet line loop.  Note that a
PART A, PART B or PART C header assigns a fresh empty list to the section
unconditionally, and that a question is appended only when the cleaned text
is non-empty. -/
def processLine (st : WS) (l : String) : WS :=
  match classify l with
  | .title => { st with title := afterColonTrim l }
  | .instr => { st with instructions := afterColonTrim l }
  | .tips => { st with tips := afterColonTrim l }
  | .partA =>
      { st with currentKey := some "Part A",
                sections := aset st.sections "Part A" [] }
  | .partB =>
      { st with currentKey := some "Part B",
                sections := aset st.sections "Part B" [] }
  | .partC =>
      { st with currentKey := some "Part C",
                sections := aset st.sections "Part C" [] }
  | .other =>
      match st.currentKey with
      | some k =>
          let cleaned := stripMarkers l
          if cleaned = "" then st
          else { st with sections := dictAppend st.sections k cleaned }
      | none => st

/-- The line preprocessing of render_html_worksheet: strip each line and
keep only the non-empty ones. -/
def prepLines (text : String) : List String :=
  ((splitLines text).map pystrip).filter (fun s => s != "")

/-- Initial loop state of render_html_worksheet: the default title built
from the child name (with a right single quotation mark, as in the source),
empty scalar fields, empty sections dict, no cursor. -/
def initWS (child : String) : WS :=
  { title := child ++ "\u2019s Worksheet", instructions := "", tips := "",
    sections := [], currentKey := none }

/-- The state after the render_html_worksheet parsing loop. -/
def parseState (text child : String) : WS :=
  (prepLines text).foldl processLine (initWS child)

/-- Fallback sentence for an empty instructions field. -/
def defaultInstructions : String :=
  "Read each question together and encourage pointing and counting."

/-- Fallback sentence for an empty tips field. -/
def defaultTips : String :=
  "Celebrate effort and keep sessions short and fun."

/-- total = sum(len(v) for v in sections.values()). -/
def totalQuestions (m : Assoc (List String)) : Nat :=
  (m.map (fun p => p.2.length)).sum

/-- The synthetic filler question appended for running total n - 1. -/
def fillerText (n : Nat) : String :=
  "Practice question " ++ toString n ++ ": Draw and count stars or cars."

/-- The body of the while total < 12 backfill loop, run a fixed number of
times: each iteration does
sections.setdefault(Extra Practice, []).append(filler(total + 1)) and
increments total. -/
def ensureTwelveAux : Nat → Assoc (List String) → Nat → Assoc (List String)
  | 0, m, _ => m
  | n + 1, m, total =>
      ensureTwelveAux n
        (dictAppend (setdefaultNil m "Extra Practice") "Extra Practice"
          (fillerText (total + 1)))
        (total + 1)

/-- The while total < 12 loop of both parsers: it runs exactly 12 - total
iterations (none when total is already at least 12). -/
def ensureTwelve (m : Assoc (List String)) (total : Nat) :
    Assoc (List String) :=
  ensureTwelveAux (12 - total) m total

/-- The list of n filler questions numbered a, a + 1, ..., a + n - 1. -/
def fillersFrom (a : Nat) : Nat → List String
  | 0 => []
  | n + 1 => fillerText a :: fillersFrom (a + 1) n

/-- The structured worksheet record render_html_worksheet assembles and
hands to html_template. -/
structure WorksheetRecord where
  title : String
  instructions : String
  tips : String
  sections : Assoc (List String)
deriving DecidableEq, Repr

/-- render_html_worksheet, up to the point where the structured record is
handed to html_template (file output and date formatting are outside the
parsing core): parse the lines, apply the instructions and tips fallbacks,
and run the minimum-question backfill. -/
def render_html_worksheet (text child : String) : WorksheetRecord :=
  { title := (parseState text child).title
    instructions :=
      if (parseState text child).instructions = "" then defaultInstructions
      else (parseState text child).instructions
    tips :=
      if (parseState text child).tips = "" then defaultTips
      else (parseState text child).tips
    sections :=
      ensureTwelve (parseState text child).sections
        (totalQuestions (parseState text child).sections) }

/- ------------------------------------------------------------------
Worksheet text parser of the Generate Worksheet button branch.
------------------------------------------------------------------ -/

/-- Loop state of the Generate Worksheet branch: same scalar fields, the
sections dict pre-initialized with the three parts, and the cursor. -/
structure BS where
  title : String
  instructions : String
  tips : String
  sections : Assoc (List String)
  current : Option String
deriving DecidableEq, Repr

/-- One iteration of the Generate Worksheet loop.  Lines are not
pre-stripped; a PART header only moves the cursor; any non-blank non-header
line is appended after cleaning, even when cleaning leaves it empty. -/
def processLineBtn (st : BS) (line : String) : BS :=
  match classify line with
  | .title => { st with title := afterColonTrim line }
  | .instr => { st with instructions := afterColonTrim line }
  | .tips => { st with tips := afterColonTrim line }
  | .partA => { st with current := some "Part A" }
  | .partB => { st with current := some "Part B" }
  | .partC => { st with current := some "Part C" }
  | .other =>
      match st.current with
      | some k =>
          if pystrip line = "" then st
          else { st with sections := dictAppend st.sections k (stripMarkers line) }
      | none => st

/-- Initial state of the Generate Worksheet branch: default title with an
ASCII apostrophe, the three parts pre-initialized empty, no cursor. -/
def initBS (child : String) : BS :=
  { title := child ++ "\x27s Worksheet", instructions := "", tips := "",
    sections := [("Part A", []), ("Part B", []), ("Part C", [])],
    current := none }

/-- The state after the Generate Worksheet parsing loop (raw splitlines,
no per-line stripping or filtering). -/
def btnParseState (text child : String) : BS :=
  (splitLines text).foldl processLineBtn (initBS child)

/-- The record the Generate Worksheet branch hands to html_template: no
instructions or tips fallback there, only the backfill. -/
def generate_worksheet_sections (text child : String) : WorksheetRecord :=
  { title := (btnParseState text child).title
    instructions := (btnParseState text child).instructions
    tips := (btnParseState text child).tips
    sections :=
      ensureTwelve (btnParseState text child).sections
        (totalQuestions (btnParseState text child).sections) }

/- ------------------------------------------------------------------
Helper lemmas about the mapping operations.
------------------------------------------------------------------ -/

lemma alookup_aset_self {β : Type} (m : Assoc β) (k : String) (v : β) :
    alookup (aset m k v) k = some v := by
  induction m with
  | nil => simp [aset, alookup]
  | cons p rest ih =>
      by_cases h : p.1 = k
      · simp [aset, alookup, h]
      · simp [aset, alookup, h, ih]

lemma NoKey_aset {β : Type} {m : Assoc β} {k2 : String} (k : String) (v : β)
    (h : NoKey m k2) (hk : k ≠ k2) : NoKey (aset m k v) k2 := by
  induction m with
  | nil => intro p hp; simp [aset] at hp; simp [hp, hk]
  | cons q rest ih =>
      intro p hp
      by_cases hq : q.1 = k
      · simp [aset, hq] at hp
        rcases hp with hp | hp
        · simp [hp, hk]
        · exact h p (List.mem_cons_of_mem _ hp)
      · simp [aset, hq] at hp
        rcases hp with hp | hp
        · exact h p (by simp [hp])
        · exact ih (fun q hq2 => h q (List.mem_cons_of_mem _ hq2)) p hp

lemma NoKey_dictAppend {m : Assoc (List String)} {k2 : String}
    (k q : String) (h : NoKey m k2) : NoKey (dictAppend m k q) k2 := by
  induction m with
  | nil => intro p hp; simp [dictAppend] at hp
  | cons r rest ih =>
      intro p hp
      have hrk := h r (List.mem_cons_self _ _)
      by_cases hr : r.1 = k
      · simp [dictAppend, hr] at hp
        rcases hp with hp | hp
        · rw [hp]
          intro hc
          exact hrk (hr.symm ▸ hc)
        · exact h p (List.mem_cons_of_mem _ hp)
      · simp [dictAppend, hr] at hp
        rcases hp with hp | hp
        · exact h p (by simp [hp])
        · exact ih (fun s hs => h s (List.mem_cons_of_mem _ hs)) p hp

lemma alookup_append_right_of_NoKey {β : Type} {m : Assoc β} {k : String}
    (v : β) (h : NoKey m k) : alookup (m ++ [(k, v)]) k = some v := by
  induction m with
  | nil => simp [alookup]
  | cons p rest ih =>
      have hp : p.1 ≠ k := h p (List.mem_cons_self _ _)
      simp only [List.cons_append, alookup, hp, if_neg hp]
      exact ih (fun q hq => h q (List.mem_cons_of_mem _ hq))

lemma dictAppend_append_of_NoKey {m : Assoc (List String)} {k : String}
    (v : List String) (q : String) (h : NoKey m k) :
    dictAppend (m ++ [(k, v)]) k q = m ++ [(k, v ++ [q])] := by
  induction m with
  | nil => simp [dictAppend]
  | cons p rest ih =>
      have hp : p.1 ≠ k := h p (List.mem_cons_self _ _)
      simp only [List.cons_append, dictAppend, if_neg hp, List.append_eq]
      rw [ih (fun q2 hq => h q2 (List.mem_cons_of_mem _ hq))]

lemma setdefaultNil_of_NoKey {m : Assoc (List String)} {k : String}
    (h : NoKey m k) : setdefaultNil m k = m ++ [(k, [])] := by
  induction m with
  | nil => simp [setdefaultNil]
  | cons p rest ih =>
      have hp : p.1 ≠ k := h p (List.mem_cons_self _ _)
      simp only [List.cons_append, setdefaultNil, if_neg hp, List.append_eq]
      rw [ih (fun q hq => h q (List.mem_cons_of_mem _ hq))]

lemma setdefaultNil_append_self {m : Assoc (List String)} {k : String}
    (v : List String) (h : NoKey m k) :
    setdefaultNil (m ++ [(k, v)]) k = m ++ [(k, v)] := by
  induction m with
  | nil => simp [setdefaultNil]
  | cons p rest ih =>
      have hp : p.1 ≠ k := h p (List.mem_cons_self _ _)
      simp only [List.cons_append, setdefaultNil, if_neg hp, List.append_eq]
      rw [ih (fun q hq => h q (List.mem_cons_of_mem _ hq))]

lemma totalQuestions_append (a b : Assoc (List String)) :
    totalQuestions (a ++ b) = totalQuestions a + totalQuestions b := by
  simp [totalQuestions]

lemma length_fillersFrom (a n : Nat) : (fillersFrom a n).length = n := by
  induction n generalizing a with
  | zero => rfl
  | succ n ih => simp [fillersFrom, ih]

lemma fillersFrom_eq_range (a n : Nat) :
    fillersFrom a n = (List.range n).map (fun i => fillerText (a + i)) := by
  induction n generalizing a with
  | zero => rfl
  | succ n ih =>
      rw [fillersFrom, List.range_succ_eq_map, List.map_cons, ih]
      simp only [List.map_map, Nat.add_zero, List.cons.injEq, true_and]
      apply List.map_congr_left
      intro i _
      simp only [Function.comp_apply]
      congr 1
      omega

/- ------------------------------------------------------------------
Helper lemmas about the backfill loop.
------------------------------------------------------------------ -/

lemma ensureTwelveAux_append (n : Nat) :
    ∀ (m0 : Assoc (List String)) (v : List String) (total : Nat),
      NoKey m0 "Extra Practice" →
      ensureTwelveAux n (m0 ++ [("Extra Practice", v)]) total =
        m0 ++ [("Extra Practice", v ++ fillersFrom (total + 1) n)] := by
  induction n with
  | zero => intro m0 v total _; simp [ensureTwelveAux, fillersFrom]
  | succ n ih =>
      intro m0 v total h
      rw [ensureTwelveAux, setdefaultNil_append_self v h,
        dictAppend_append_of_NoKey v _ h, ih m0 _ (total + 1) h]
      simp [fillersFrom]

lemma ensureTwelve_of_lt {m : Assoc (List String)} {total : Nat}
    (hno : NoKey m "Extra Practice") (h : total < 12) :
    ensureTwelve m total =
      m ++ [("Extra Practice", fillersFrom (total + 1) (12 - total))] := by
  obtain ⟨n, hn⟩ : ∃ n, 12 - total = n + 1 := ⟨11 - total, by omega⟩
  rw [ensureTwelve, hn, ensureTwelveAux, setdefaultNil_of_NoKey hno,
    dictAppend_append_of_NoKey _ _ hno, ensureTwelveAux_append n m _ _ hno]
  simp [fillersFrom]

lemma ensureTwelve_of_ge {m : Assoc (List String)} {total : Nat}
    (h : 12 ≤ total) : ensureTwelve m total = m := by
  have : 12 - total = 0 := by omega
  rw [ensureTwelve, this, ensureTwelveAux]

/- ------------------------------------------------------------------
Branch lemmas for the two line-processing loops.
------------------------------------------------------------------ -/

lemma processLine_title (st : WS) (l : String)
    (hc : classify l = LineKind.title) :
    processLine st l = { st with title := afterColonTrim l } := by
  unfold processLine; rw [hc]

lemma processLine_instr (st : WS) (l : String)
    (hc : classify l = LineKind.instr) :
    processLine st l = { st with instructions := afterColonTrim l } := by
  unfold processLine; rw [hc]

lemma processLine_tips (st : WS) (l : String)
    (hc : classify l = LineKind.tips) :
    processLine st l = { st with tips := afterColonTrim l } := by
  unfold processLine; rw [hc]

lemma processLine_partA (st : WS) (l : String)
    (hc : classify l = LineKind.partA) :
    processLine st l =
      { st with currentKey := some "Part A"
                sections := aset st.sections "Part A" [] } := by
  unfold processLine; rw [hc]

lemma processLine_partB (st : WS) (l : String)
    (hc : classify l = LineKind.partB) :
    processLine st l =
      { st with currentKey := some "Part B"
                sections := aset st.sections "Part B" [] } := by
  unfold processLine; rw [hc]

lemma processLine_partC (st : WS) (l : String)
    (hc : classify l = LineKind.partC) :
    processLine st l =
      { st with currentKey := some "Part C"
                sections := aset st.sections "Part C" [] } := by
  unfold processLine; rw [hc]

lemma processLine_other_none (st : WS) (l : String)
    (hc : classify l = LineKind.other) (hk : st.currentKey = none) :
    processLine st l = st := by
  unfold processLine; rw [hc, hk]

lemma processLine_other_some (st : WS) (l : String) (k : String)
    (hc : classify l = LineKind.other) (hk : st.currentKey = some k) :
    processLine st l =
      (if stripMarkers l = "" then st
       else { st with sections := dictAppend st.sections k (stripMarkers l) }) := by
  unfold processLine; rw [hc, hk]

lemma processLineBtn_title (st : BS) (l : String)
    (hc : classify l = LineKind.title) :
    processLineBtn st l = { st with title := afterColonTrim l } := by
  unfold processLineBtn; rw [hc]

lemma processLineBtn_instr (st : BS) (l : String)
    (hc : classify l = LineKind.instr) :
    processLineBtn st l = { st with instructions := afterColonTrim l } := by
  unfold processLineBtn; rw [hc]

lemma processLineBtn_tips (st : BS) (l : String)
    (hc : classify l = LineKind.tips) :
    processLineBtn st l = { st with tips := afterColonTrim l } := by
  unfold processLineBtn; rw [hc]

lemma processLineBtn_partA (st : BS) (l : String)
    (hc : classify l = LineKind.partA) :
    processLineBtn st l = { st with current := some "Part A" } := by
  unfold processLineBtn; rw [hc]

lemma processLineBtn_partB (st : BS) (l : String)
    (hc : classify l = LineKind.partB) :
    processLineBtn st l = { st with current := some "Part B" } := by
  unfold processLineBtn; rw [hc]

lemma processLineBtn_partC (st : BS) (l : String)
    (hc : classify l = LineKind.partC) :
    processLineBtn st l = { st with current := some "Part C" } := by
  unfold processLineBtn; rw [hc]

lemma processLineBtn_other_none (st : BS) (l : String)
    (hc : classify l = LineKind.other) (hk : st.current = none) :
    processLineBtn st l = st := by
  unfold processLineBtn; rw [hc, hk]

lemma processLineBtn_other_some (st : BS) (l : String) (k : String)
    (hc : classify l = LineKind.other) (hk : st.current = some k) :
    processLineBtn st l =
      (if pystrip l = "" then st
       else { st with sections := dictAppend st.sections k (stripMarkers l) }) := by
  unfold processLineBtn; rw [hc, hk]

/- ------------------------------------------------------------------
Field-preservation lemmas across the render loop.
------------------------------------------------------------------ -/

lemma title_processLine (st : WS) (l : String)
    (h : classify l ≠ LineKind.title) :
    (processLine st l).title = st.title := by
  cases hc : classify l with
  | title => exact absurd hc h
  | instr => rw [processLine_instr st l hc]
  | tips => rw [processLine_tips st l hc]
  | partA => rw [processLine_partA st l hc]
  | partB => rw [processLine_partB st l hc]
  | partC => rw [processLine_partC st l hc]
  | other =>
      cases hk : st.currentKey with
      | none => rw [processLine_other_none st l hc hk]
      | some k =>
          rw [processLine_other_some st l k hc hk]
          split <;> rfl

lemma instr_processLine (st : WS) (l : String)
    (h : classify l ≠ LineKind.instr) :
    (processLine st l).instructions = st.instructions := by
  cases hc : classify l with
  | instr => exact absurd hc h
  | title => rw [processLine_title st l hc]
  | tips => rw [processLine_tips st l hc]
  | partA => rw [processLine_partA st l hc]
  | partB => rw [processLine_partB st l hc]
  | partC => rw [processLine_partC st l hc]
  | other =>
      cases hk : st.currentKey with
      | none => rw [processLine_other_none st l hc hk]
      | some k =>
          rw [processLine_other_some st l k hc hk]
          split <;> rfl

lemma tips_processLine (st : WS) (l : String)
    (h : classify l ≠ LineKind.tips) :
    (processLine st l).tips = st.tips := by
  cases hc : classify l with
  | tips => exact absurd hc h
  | title => rw [processLine_title st l hc]
  | instr => rw [processLine_instr st l hc]
  | partA => rw [processLine_partA st l hc]
  | partB => rw [processLine_partB st l hc]
  | partC => rw [processLine_partC st l hc]
  | other =>
      cases hk : st.currentKey with
      | none => rw [processLine_other_none st l hc hk]
      | some k =>
          rw [processLine_other_some st l k hc hk]
          split <;> rfl

lemma currentKey_processLine (st : WS) (l : String)
    (h : classify l = LineKind.title ∨ classify l = LineKind.instr ∨
      classify l = LineKind.tips ∨ classify l = LineKind.other) :
    (processLine st l).currentKey = st.currentKey := by
  rcases h with hc | hc | hc | hc
  · rw [processLine_title st l hc]
  · rw [processLine_instr st l hc]
  · rw [processLine_tips st l hc]
  · cases hk : st.currentKey with
    | none => rw [processLine_other_none st l hc hk]; exact hk
    | some k =>
        rw [processLine_other_some st l k hc hk]
        split <;> simp [hk]

lemma foldl_title_eq (lines : List String) (st : WS)
    (h : ∀ l ∈ lines, classify l ≠ LineKind.title) :
    (lines.foldl processLine st).title = st.title := by
  induction lines generalizing st with
  | nil => rfl
  | cons l rest ih =>
      rw [List.foldl_cons, ih _ (fun x hx => h x (List.mem_cons_of_mem _ hx)),
        title_processLine st l (h l (List.mem_cons_self _ _))]

lemma foldl_instr_eq (lines : List String) (st : WS)
    (h : ∀ l ∈ lines, classify l ≠ LineKind.instr) :
    (lines.foldl processLine st).instructions = st.instructions := by
  induction lines generalizing st with
  | nil => rfl
  | cons l rest ih =>
      rw [List.foldl_cons, ih _ (fun x hx => h x (List.mem_cons_of_mem _ hx)),
        instr_processLine st l (h l (List.mem_cons_self _ _))]

lemma foldl_tips_eq (lines : List String) (st : WS)
    (h : ∀ l ∈ lines, classify l ≠ LineKind.tips) :
    (lines.foldl processLine st).tips = st.tips := by
  induction lines generalizing st with
  | nil => rfl
  | cons l rest ih =>
      rw [List.foldl_cons, ih _ (fun x hx => h x (List.mem_cons_of_mem _ hx)),
        tips_processLine st l (h l (List.mem_cons_self _ _))]

lemma foldl_other_none (lines : List String) (st : WS)
    (hk : st.currentKey = none)
    (h : ∀ l ∈ lines, classify l = LineKind.other) :
    lines.foldl processLine st = st := by
  induction lines with
  | nil => rfl
  | cons l rest ih =>
      rw [List.foldl_cons,
        processLine_other_none st l (h l (List.mem_cons_self _ _)) hk]
      exact ih (fun x hx => h x (List.mem_cons_of_mem _ hx))

/- ------------------------------------------------------------------
The reserved overflow key never appears before the backfill.
------------------------------------------------------------------ -/

lemma processLine_NoKey (st : WS) (l : String)
    (h : NoKey st.sections "Extra Practice") :
    NoKey (processLine st l).sections "Extra Practice" := by
  cases hc : classify l with
  | title => rw [processLine_title st l hc]; exact h
  | instr => rw [processLine_instr st l hc]; exact h
  | tips => rw [processLine_tips st l hc]; exact h
  | partA =>
      rw [processLine_partA st l hc]
      exact NoKey_aset "Part A" [] h (by decide)
  | partB =>
      rw [processLine_partB st l hc]
      exact NoKey_aset "Part B" [] h (by decide)
  | partC =>
      rw [processLine_partC st l hc]
      exact NoKey_aset "Part C" [] h (by decide)
  | other =>
      cases hk : st.currentKey with
      | none => rw [processLine_other_none st l hc hk]; exact h
      | some k =>
          rw [processLine_other_some st l k hc hk]
          split
          · exact h
          · exact NoKey_dictAppend _ _ h

lemma parseState_NoKey (text child : String) :
    NoKey (parseState text child).sections "Extra Practice" := by
  have H : ∀ (lines : List String) (st : WS),
      NoKey st.sections "Extra Practice" →
      NoKey (lines.foldl processLine st).sections "Extra Practice" := by
    intro lines
    induction lines with
    | nil => intro st h; exact h
    | cons l rest ih =>
        intro st h
        exact ih _ (processLine_NoKey st l h)
  exact H _ _ (by intro p hp; simp [initWS] at hp)

lemma processLineBtn_NoKey (st : BS) (l : String)
    (h : NoKey st.sections "Extra Practice") :
    NoKey (processLineBtn st l).sections "Extra Practice" := by
  cases hc : classify l with
  | title => rw [processLineBtn_title st l hc]; exact h
  | instr => rw [processLineBtn_instr st l hc]; exact h
  | tips => rw [processLineBtn_tips st l hc]; exact h
  | partA => rw [processLineBtn_partA st l hc]; exact h
  | partB => rw [processLineBtn_partB st l hc]; exact h
  | partC => rw [processLineBtn_partC st l hc]; exact h
  | other =>
      cases hk : st.current with
      | none => rw [processLineBtn_other_none st l hc hk]; exact h
      | some k =>
          rw [processLineBtn_other_some st l k hc hk]
          split
          · exact h
          · exact NoKey_dictAppend _ _ h

lemma btnParseState_NoKey (text child : String) :
    NoKey (btnParseState text child).sections "Extra Practice" := by
  have H : ∀ (lines : List String) (st : BS),
      NoKey st.sections "Extra Practice" →
      NoKey (lines.foldl processLineBtn st).sections "Extra Practice" := by
    intro lines
    induction lines with
    | nil => intro st h; exact h
    | cons l rest ih =>
        intro st h
        exact ih _ (processLineBtn_NoKey st l h)
  refine H _ _ ?_
  intro p hp
  simp [initBS] at hp
  rcases hp with hp | hp | hp <;> rw [hp] <;> decide

/- ------------------------------------------------------------------
Claims about the session history store.
------------------------------------------------------------------ -/

/-- C2: After save of an in-memory history with N messages, a fresh get for
the same session id (a load with no in-process cache entry) yields a history
whose messages equal, in order, the last min(20, N) messages that were
saved: the result is exactly the length-min(20, N) suffix of the saved
list. -/
theorem C2_save_get_roundtrip (sid : String) (store store2 : Cache)
    (files files2 : Files) (msgs : List Msg)
    (hcache : alookup store sid = some msgs)
    (hsave : save_session_history sid store files = .ok files2)
    (hfresh : alookup store2 sid = none) :
    get_session_history sid store2 files2 =
      .ok (lastN 20 msgs, aset store2 sid (lastN 20 msgs)) ∧
    (lastN 20 msgs).length = min 20 msgs.length ∧
    lastN 20 msgs <:+ msgs := by
  have hsave2 : Except.ok (ε := StoreError)
      (aset files (historyFilename sid) (FileContent.json msgs)) =
      .ok files2 := by
    rw [← hsave]
    unfold save_session_history
    rw [hcache]
  have hfiles2 : files2 = aset files (historyFilename sid)
      (FileContent.json msgs) := (Except.ok.inj hsave2).symm
  refine ⟨?_, ?_, ?_⟩
  · rw [hfiles2]
    unfold get_session_history
    rw [hfresh, alookup_aset_self]
  · simp only [lastN, List.length_drop]
    omega
  · exact List.drop_suffix _ _

/-- C2 witness: a concrete three-message history saved under session id
abc123 and re-fetched by a process with an empty cache. -/
theorem C2_save_get_roundtrip_witness :
    get_session_history "abc123" []
        (aset [] (historyFilename "abc123")
          (FileContent.json [⟨"user", "hi"⟩, ⟨"assistant", "hello"⟩,
            ⟨"user", "bye"⟩])) =
      .ok (lastN 20 [⟨"user", "hi"⟩, ⟨"assistant", "hello"⟩, ⟨"user", "bye"⟩],
        aset [] "abc123"
          (lastN 20 [⟨"user", "hi"⟩, ⟨"assistant", "hello"⟩, ⟨"user", "bye"⟩])) ∧
    (lastN 20 [(⟨"user", "hi"⟩ : Msg), ⟨"assistant", "hello"⟩,
      ⟨"user", "bye"⟩]).length =
      min 20 [(⟨"user", "hi"⟩ : Msg), ⟨"assistant", "hello"⟩,
        ⟨"user", "bye"⟩].length ∧
    lastN 20 [(⟨"user", "hi"⟩ : Msg), ⟨"assistant", "hello"⟩, ⟨"user", "bye"⟩]
      <:+ [⟨"user", "hi"⟩, ⟨"assistant", "hello"⟩, ⟨"user", "bye"⟩] :=
  C2_save_get_roundtrip "abc123"
    [("abc123", [⟨"user", "hi"⟩, ⟨"assistant", "hello"⟩, ⟨"user", "bye"⟩])]
    [] [] _ [⟨"user", "hi"⟩, ⟨"assistant", "hello"⟩, ⟨"user", "bye"⟩]
    rfl rfl rfl

/-- C8: On get with no in-process cache entry, a persisted file that is
non-empty but unparsable makes the load fail with an error (no history is
fabricated), while an absent file and an empty file are treated identically,
both returning a fresh empty history that is then cached. -/
theorem C8_load_failure_semantics (sid : String) (store : Cache)
    (files : Files) (hfresh : alookup store sid = none) :
    (alookup files (historyFilename sid) = some .malformed →
      get_session_history sid store files = .error .corruptHistory) ∧
    (alookup files (historyFilename sid) = none ∨
        alookup files (historyFilename sid) = some .blank →
      get_session_history sid store files = .ok ([], aset store sid [])) := by
  constructor
  · intro hf
    unfold get_session_history
    rw [hfresh, hf]
  · intro hf
    unfold get_session_history
    rcases hf with hf | hf <;> rw [hfresh, hf]

/-- C8 witness: a malformed file makes the load fail, and a missing file
yields a fresh empty cached history. -/
theorem C8_load_failure_semantics_witness :
    get_session_history "abc123" []
        [("abc123_history.json", FileContent.malformed)] =
      .error .corruptHistory ∧
    get_session_history "abc123" [] [] = .ok ([], aset [] "abc123" []) :=
  ⟨(C8_load_failure_semantics "abc123" []
      [("abc123_history.json", FileContent.malformed)] rfl).1 rfl,
    (C8_load_failure_semantics "abc123" [] [] rfl).2 (Or.inl rfl)⟩

/-- C9: Calling get twice in the same process for the same session id with
no intervening append or save returns the identical history and cache state
both times, and the second call performs no load from persisted storage:
its result does not depend on the files at all. -/
theorem C9_get_idempotent (sid : String) (store store1 : Cache)
    (files : Files) (h : List Msg)
    (hget : get_session_history sid store files = .ok (h, store1)) :
    get_session_history sid store1 files = .ok (h, store1) ∧
    ∀ files2 : Files, get_session_history sid store1 files2 =
      .ok (h, store1) := by
  have hcached : alookup store1 sid = some h := by
    unfold get_session_history at hget
    cases hc : alookup store sid with
    | some h0 =>
        rw [hc] at hget
        have h2 : (h0, store) = (h, store1) := Except.ok.inj hget
        rw [← (Prod.mk.inj h2).2, ← (Prod.mk.inj h2).1, hc]
    | none =>
        rw [hc] at hget
        cases hf : alookup files (historyFilename sid) with
        | none =>
            rw [hf] at hget
            have h2 : (([] : List Msg), aset store sid []) = (h, store1) :=
              Except.ok.inj hget
            rw [← (Prod.mk.inj h2).2, ← (Prod.mk.inj h2).1]
            exact alookup_aset_self _ _ _
        | some fc =>
            cases fc with
            | blank =>
                rw [hf] at hget
                have h2 : (([] : List Msg), aset store sid []) = (h, store1) :=
                  Except.ok.inj hget
                rw [← (Prod.mk.inj h2).2, ← (Prod.mk.inj h2).1]
                exact alookup_aset_self _ _ _
            | json msgs =>
                rw [hf] at hget
                have h2 : (lastN 20 msgs, aset store sid (lastN 20 msgs)) =
                    (h, store1) := Except.ok.inj hget
                rw [← (Prod.mk.inj h2).2, ← (Prod.mk.inj h2).1]
                exact alookup_aset_self _ _ _
            | malformed =>
                rw [hf] at hget
                exact absurd hget (by simp)
  constructor
  · unfold get_session_history
    rw [hcached]
  · intro files2
    unfold get_session_history
    rw [hcached]

/-- C9 witness: two gets in a row on a concrete store hydrated from one
persisted message. -/
theorem C9_get_idempotent_witness :
    get_session_history "abc123" [("abc123", [⟨"user", "hi"⟩])] [] =
      .ok ([⟨"user", "hi"⟩], [("abc123", [⟨"user", "hi"⟩])]) ∧
    ∀ files2 : Files,
      get_session_history "abc123" [("abc123", [⟨"user", "hi"⟩])] files2 =
        .ok ([⟨"user", "hi"⟩], [("abc123", [⟨"user", "hi"⟩])]) :=
  C9_get_idempotent "abc123" [("abc123", [⟨"user", "hi"⟩])]
    [("abc123", [⟨"user", "hi"⟩])] [] [⟨"user", "hi"⟩] rfl

/-- C10: Calling save for a session id that has never been loaded or
created in this process fails with the KeyError from indexing
chat_history_store; the error is raised before the file is opened, so
durable storage is untouched and no empty history file is created (the
successful branch is the only one that produces a new file state). -/
theorem C10_save_unknown_session (sid : String) (store : Cache)
    (files : Files) (hfresh : alookup store sid = none) :
    save_session_history sid store files = .error .keyError ∧
    ∀ files2 : Files, save_session_history sid store files ≠ .ok files2 := by
  have h : save_session_history sid store files = .error .keyError := by
    unfold save_session_history
    rw [hfresh]
  exact ⟨h, fun files2 hc => by rw [h] at hc; exact Except.noConfusion hc⟩

/-- C10 witness: saving a session id absent from a concrete cache. -/
theorem C10_save_unknown_session_witness :
    save_session_history "ghost" [("abc123", [⟨"user", "hi"⟩])] [] =
      .error .keyError ∧
    ∀ files2 : Files,
      save_session_history "ghost" [("abc123", [⟨"user", "hi"⟩])] [] ≠
        .ok files2 :=
  C10_save_unknown_session "ghost" [("abc123", [⟨"user", "hi"⟩])] [] rfl

/- ------------------------------------------------------------------
Claims about the worksheet text parser.
------------------------------------------------------------------ -/

/-- C1: For every raw text whose recognized sections yield fewer than 12
question lines in total, the parse output has total question count exactly
12, the deficit appended under the reserved Extra Practice section, each
filler question numbered sequentially continuing from the running total at
the time it is appended.  This holds for the render_html_worksheet parser
and for the Generate Worksheet branch parser alike. -/
theorem C1_backfill_to_twelve (text child : String) :
    (totalQuestions (parseState text child).sections < 12 →
      totalQuestions (render_html_worksheet text child).sections = 12 ∧
      alookup (render_html_worksheet text child).sections "Extra Practice" =
        some ((List.range
            (12 - totalQuestions (parseState text child).sections)).map
          (fun i => fillerText
            (totalQuestions (parseState text child).sections + 1 + i)))) ∧
    (totalQuestions (btnParseState text child).sections < 12 →
      totalQuestions (generate_worksheet_sections text child).sections = 12 ∧
      alookup (generate_worksheet_sections text child).sections
          "Extra Practice" =
        some ((List.range
            (12 - totalQuestions (btnParseState text child).sections)).map
          (fun i => fillerText
            (totalQuestions (btnParseState text child).sections + 1 + i)))) := by
  constructor
  · intro h
    have hno := parseState_NoKey text child
    have hfix := ensureTwelve_of_lt hno h
    constructor
    · show totalQuestions (ensureTwelve (parseState text child).sections
        (totalQuestions (parseState text child).sections)) = 12
      rw [hfix, totalQuestions_append]
      have hl : totalQuestions [("Extra Practice",
          fillersFrom (totalQuestions (parseState text child).sections + 1)
            (12 - totalQuestions (parseState text child).sections))] =
          12 - totalQuestions (parseState text child).sections := by
        simp [totalQuestions, length_fillersFrom]
      rw [hl]
      omega
    · show alookup (ensureTwelve (parseState text child).sections
        (totalQuestions (parseState text child).sections)) "Extra Practice" = _
      rw [hfix, alookup_append_right_of_NoKey _ hno, fillersFrom_eq_range]
  · intro h
    have hno := btnParseState_NoKey text child
    have hfix := ensureTwelve_of_lt hno h
    constructor
    · show totalQuestions (ensureTwelve (btnParseState text child).sections
        (totalQuestions (btnParseState text child).sections)) = 12
      rw [hfix, totalQuestions_append]
      have hl : totalQuestions [("Extra Practice",
          fillersFrom (totalQuestions (btnParseState text child).sections + 1)
            (12 - totalQuestions (btnParseState text child).sections))] =
          12 - totalQuestions (btnParseState text child).sections := by
        simp [totalQuestions, length_fillersFrom]
      rw [hl]
      omega
    · show alookup (ensureTwelve (btnParseState text child).sections
        (totalQuestions (btnParseState text child).sections)) "Extra Practice" = _
      rw [hfix, alookup_append_right_of_NoKey _ hno, fillersFrom_eq_range]

/-- C1 witness: the empty raw text yields zero parsed questions, so the
render parser emits exactly twelve fillers numbered 1 through 12 under
Extra Practice. -/
theorem C1_backfill_to_twelve_witness :
    totalQuestions (render_html_worksheet "" "Landon").sections = 12 ∧
    alookup (render_html_worksheet "" "Landon").sections "Extra Practice" =
      some ((List.range
          (12 - totalQuestions (parseState "" "Landon").sections)).map
        (fun i => fillerText
          (totalQuestions (parseState "" "Landon").sections + 1 + i))) :=
  (C1_backfill_to_twelve "" "Landon").1 (by decide)

/-- C7: For every raw text containing no header lines at all, parse returns
the full fallback record: the default title built from the supplied child
name, the fixed default instructions and tips sentences, and a single Extra
Practice section of exactly 12 filler items, every content line of the
input discarded. -/
theorem C7_no_headers_fallback (text child : String)
    (h : ∀ l ∈ prepLines text, classify l = LineKind.other) :
    render_html_worksheet text child =
      { title := child ++ "\u2019s Worksheet"
        instructions := defaultInstructions
        tips := defaultTips
        sections := [("Extra Practice",
          (List.range 12).map (fun i => fillerText (1 + i)))] } := by
  have hst : parseState text child = initWS child :=
    foldl_other_none _ _ rfl h
  unfold render_html_worksheet
  rw [hst]
  have h12 : ensureTwelve (initWS child).sections
      (totalQuestions (initWS child).sections) =
      [("Extra Practice", (List.range 12).map (fun i => fillerText (1 + i)))] := by
    show ensureTwelve [] 0 = _
    decide
  rw [h12]
  rfl

/-- C7 witness: a two-line text with no recognizable header. -/
theorem C7_no_headers_fallback_witness :
    render_html_worksheet "hello\nworld 123" "Landon" =
      { title := "Landon" ++ "\u2019s Worksheet"
        instructions := defaultInstructions
        tips := defaultTips
        sections := [("Extra Practice",
          (List.range 12).map (fun i => fillerText (1 + i)))] } :=
  C7_no_headers_fallback "hello\nworld 123" "Landon" (by decide)

/-- C3 counterexample: a TITLE line without a colon does not leave the
title unchanged.  In the text with a first line TITLE: Real and a second
line TITLE, the claim predicts the title stays Real, but
l.split(colon, 1)[-1] on a colonless line is the whole line, so the parser
overwrites the title with the text TITLE. -/
theorem C3_colonless_header_counterexample :
    (render_html_worksheet "TITLE: Real\nTITLE" "Landon").title = "TITLE" ∧
    (render_html_worksheet "TITLE: Real\nTITLE" "Landon").title ≠ "Real" := by
  decide

/-- C3 amended: a TITLE, INSTRUCTIONS or PARENT TIPS line without a colon
sets the corresponding scalar field to the entire stripped line (Python
split with a colon separator returns the whole string when no colon is
present), rather than leaving the field unchanged; a PART A, PART B or
PART C line without a colon still switches the section cursor, in both
parsers. -/
theorem C3_colonless_header_amended (st : WS) (bst : BS) (l : String)
    (hcol : hasColon l = false) :
    (classify l = LineKind.title → (processLine st l).title = pystrip l) ∧
    (classify l = LineKind.instr →
      (processLine st l).instructions = pystrip l) ∧
    (classify l = LineKind.tips → (processLine st l).tips = pystrip l) ∧
    (classify l = LineKind.partA →
      (processLine st l).currentKey = some "Part A" ∧
      (processLineBtn bst l).current = some "Part A") ∧
    (classify l = LineKind.partB →
      (processLine st l).currentKey = some "Part B" ∧
      (processLineBtn bst l).current = some "Part B") ∧
    (classify l = LineKind.partC →
      (processLine st l).currentKey = some "Part C" ∧
      (processLineBtn bst l).current = some "Part C") := by
  have hac : afterColonTrim l = pystrip l := by
    unfold afterColonTrim splitColonOnceLast
    rw [hcol]
    simp
  refine ⟨?_, ?_, ?_, ?_, ?_, ?_⟩
  · intro hc; rw [processLine_title st l hc]; exact hac
  · intro hc; rw [processLine_instr st l hc]; exact hac
  · intro hc; rw [processLine_tips st l hc]; exact hac
  · intro hc
    exact ⟨by rw [processLine_partA st l hc],
      by rw [processLineBtn_partA bst l hc]⟩
  · intro hc
    exact ⟨by rw [processLine_partB st l hc],
      by rw [processLineBtn_partB bst l hc]⟩
  · intro hc
    exact ⟨by rw [processLine_partC st l hc],
      by rw [processLineBtn_partC bst l hc]⟩

/-- C3 amended witness: the colonless line TITLE sets the title field to
the whole line, and the colonless line PART A still moves the cursor. -/
theorem C3_colonless_header_amended_witness :
    (processLine (initWS "Landon") "TITLE").title = pystrip "TITLE" ∧
    (processLine (initWS "Landon") "PART A").currentKey = some "Part A" ∧
    (processLineBtn (initBS "Landon") "PART A").current = some "Part A" :=
  ⟨(C3_colonless_header_amended (initWS "Landon") (initBS "Landon") "TITLE"
      (by decide)).1 (by decide),
    ((C3_colonless_header_amended (initWS "Landon") (initBS "Landon") "PART A"
      (by decide)).2.2.2.1 (by decide)).1,
    ((C3_colonless_header_amended (initWS "Landon") (initBS "Landon") "PART A"
      (by decide)).2.2.2.1 (by decide)).2⟩

/-- C4 counterexample: in render_html_worksheet a second PART A header does
not leave the previously collected question list intact.  After the lines
PART A, Some question, PART A, the claim predicts the Part A list still
holds Some question, but the parser re-assigns a fresh empty list on every
PART header, so the list ends up empty. -/
theorem C4_repeated_part_counterexample :
    alookup (render_html_worksheet "PART A\nSome question\nPART A"
      "Landon").sections "Part A" = some [] ∧
    alookup (render_html_worksheet "PART A\nSome question\nPART A"
      "Landon").sections "Part A" ≠ some ["Some question"] := by
  decide

/-- C4 amended: in render_html_worksheet a PART A, PART B or PART C header
always sets the cursor and re-assigns that section an empty question list,
even when the section already has collected questions (dict assignment
keeps its insertion position); only the Generate Worksheet branch parser,
whose headers touch nothing but the cursor, leaves collected lists
intact. -/
theorem C4_repeated_part_amended (st : WS) (bst : BS) (l : String) :
    (classify l = LineKind.partA →
      (processLine st l).currentKey = some "Part A" ∧
      (processLine st l).sections = aset st.sections "Part A" [] ∧
      alookup (processLine st l).sections "Part A" = some [] ∧
      (processLineBtn bst l).current = some "Part A" ∧
      (processLineBtn bst l).sections = bst.sections) ∧
    (classify l = LineKind.partB →
      (processLine st l).currentKey = some "Part B" ∧
      (processLine st l).sections = aset st.sections "Part B" [] ∧
      alookup (processLine st l).sections "Part B" = some [] ∧
      (processLineBtn bst l).current = some "Part B" ∧
      (processLineBtn bst l).sections = bst.sections) ∧
    (classify l = LineKind.partC →
      (processLine st l).currentKey = some "Part C" ∧
      (processLine st l).sections = aset st.sections "Part C" [] ∧
      alookup (processLine st l).sections "Part C" = some [] ∧
      (processLineBtn bst l).current = some "Part C" ∧
      (processLineBtn bst l).sections = bst.sections) := by
  refine ⟨?_, ?_, ?_⟩
  · intro hc
    rw [processLine_partA st l hc, processLineBtn_partA bst l hc]
    exact ⟨rfl, rfl, alookup_aset_self _ _ _, rfl, rfl⟩
  · intro hc
    rw [processLine_partB st l hc, processLineBtn_partB bst l hc]
    exact ⟨rfl, rfl, alookup_aset_self _ _ _, rfl, rfl⟩
  · intro hc
    rw [processLine_partC st l hc, processLineBtn_partC bst l hc]
    exact ⟨rfl, rfl, alookup_aset_self _ _ _, rfl, rfl⟩

/-- C4 amended witness: a repeated PART A header on a state that already
collected a question resets the list in the render parser and preserves it
in the button parser. -/
theorem C4_repeated_part_amended_witness :
    (processLine
      { title := "t"
        instructions := ""
        tips := ""
        sections := [("Part A", ["Old question"])]
        currentKey := some "Part A" } "PART A").sections =
      aset [("Part A", ["Old question"])] "Part A" [] ∧
    (processLineBtn
      { title := "t"
        instructions := ""
        tips := ""
        sections := [("Part A", ["Old question"])]
        current := some "Part A" } "PART A").sections =
      [("Part A", ["Old question"])] :=
  ⟨((C4_repeated_part_amended
      { title := "t", instructions := "", tips := "",
        sections := [("Part A", ["Old question"])],
        currentKey := some "Part A" }
      { title := "t", instructions := "", tips := "",
        sections := [("Part A", ["Old question"])],
        current := some "Part A" } "PART A").1 (by decide)).2.1,
    ((C4_repeated_part_amended
      { title := "t", instructions := "", tips := "",
        sections := [("Part A", ["Old question"])],
        currentKey := some "Part A" }
      { title := "t", instructions := "", tips := "",
        sections := [("Part A", ["Old question"])],
        current := some "Part A" } "PART A").1 (by decide)).2.2.2.2⟩

/-- C5 counterexample: on the single line INSTRUCTIONS: the trimmed text
after the first colon is empty, but the output field is not that empty
string: the fallback replaces it with the default sentence. -/
theorem C5_last_header_counterexample :
    (render_html_worksheet "INSTRUCTIONS:" "Landon").instructions =
      defaultInstructions ∧
    afterColonTrim "INSTRUCTIONS:" = "" ∧
    (render_html_worksheet "INSTRUCTIONS:" "Landon").instructions ≠
      afterColonTrim "INSTRUCTIONS:" := by
  decide

/-- C5 amended: for the last TITLE (respectively INSTRUCTIONS, PARENT
TIPS) line of the input, the parsed value is the trimmed text after its
first colon, with earlier occurrences overwritten; the title field keeps
that value as is, while the instructions and tips fields fall back to the
fixed default sentence when the value is empty.  None of these lines
changes the section cursor. -/
theorem C5_last_header_amended (text child : String) (pre post : List String)
    (l : String) (hsplit : prepLines text = pre ++ l :: post)
    (_hcol : hasColon l = true) :
    (classify l = LineKind.title →
      (∀ x ∈ post, classify x ≠ LineKind.title) →
      (render_html_worksheet text child).title = afterColonTrim l) ∧
    (classify l = LineKind.instr →
      (∀ x ∈ post, classify x ≠ LineKind.instr) →
      (render_html_worksheet text child).instructions =
        (if afterColonTrim l = "" then defaultInstructions
         else afterColonTrim l)) ∧
    (classify l = LineKind.tips →
      (∀ x ∈ post, classify x ≠ LineKind.tips) →
      (render_html_worksheet text child).tips =
        (if afterColonTrim l = "" then defaultTips else afterColonTrim l)) ∧
    (∀ (st : WS) (x : String),
      classify x = LineKind.title ∨ classify x = LineKind.instr ∨
        classify x = LineKind.tips →
      (processLine st x).currentKey = st.currentKey) := by
  have hps : parseState text child =
      post.foldl processLine
        (processLine (pre.foldl processLine (initWS child)) l) := by
    unfold parseState
    rw [hsplit, List.foldl_append, List.foldl_cons]
  refine ⟨?_, ?_, ?_, ?_⟩
  · intro hc hpost
    show (parseState text child).title = afterColonTrim l
    rw [hps, foldl_title_eq post _ hpost, processLine_title _ l hc]
  · intro hc hpost
    show (if (parseState text child).instructions = "" then
        defaultInstructions else (parseState text child).instructions) = _
    rw [hps, foldl_instr_eq post _ hpost, processLine_instr _ l hc]
  · intro hc hpost
    show (if (parseState text child).tips = "" then defaultTips
        else (parseState text child).tips) = _
    rw [hps, foldl_tips_eq post _ hpost, processLine_tips _ l hc]
  · intro st x hx
    rcases hx with hx | hx | hx
    · exact currentKey_processLine st x (Or.inl hx)
    · exact currentKey_processLine st x (Or.inr (Or.inl hx))
    · exact currentKey_processLine st x (Or.inr (Or.inr (Or.inl hx)))

/-- C5 amended witness: with two TITLE lines the last one wins, its value
the trimmed text after its first colon. -/
theorem C5_last_header_amended_witness :
    (render_html_worksheet "TITLE: Alpha\nTITLE: Beta" "Landon").title =
      afterColonTrim "TITLE: Beta" :=
  (C5_last_header_amended "TITLE: Alpha\nTITLE: Beta" "Landon"
    ["TITLE: Alpha"] [] "TITLE: Beta" (by decide) (by decide)).1
    (by decide) (by decide)

/-- C6 counterexample: in the Generate Worksheet branch a non-empty line
consisting only of marker characters is appended even though it is empty
after cleaning.  On the text PART A followed by the line 1. and a space,
the claim predicts the Part A list stays empty, but the parser appends the
empty cleaned string. -/
theorem C6_question_cleaning_counterexample :
    alookup (generate_worksheet_sections "PART A\n1. " "Landon").sections
      "Part A" = some [""] ∧
    alookup (generate_worksheet_sections "PART A\n1. " "Landon").sections
      "Part A" ≠ some [] := by
  decide

/-- C6 amended: for a non-header line with the cursor set,
render_html_worksheet strips the leading run of marker characters and
appends the result only when it is non-empty after cleaning, while the
Generate Worksheet branch appends the cleaned text whenever the raw line is
non-blank, even when cleaning leaves it empty; with no cursor set both
parsers discard the line without error. -/
theorem C6_question_cleaning_amended (st : WS) (bst : BS) (l k : String)
    (hc : classify l = LineKind.other) :
    (st.currentKey = some k → stripMarkers l ≠ "" →
      processLine st l =
        { st with sections := dictAppend st.sections k (stripMarkers l) }) ∧
    (st.currentKey = some k → stripMarkers l = "" →
      processLine st l = st) ∧
    (st.currentKey = none → processLine st l = st) ∧
    (bst.current = some k → pystrip l ≠ "" →
      processLineBtn bst l =
        { bst with sections := dictAppend bst.sections k (stripMarkers l) }) ∧
    (bst.current = some k → pystrip l = "" → processLineBtn bst l = bst) ∧
    (bst.current = none → processLineBtn bst l = bst) := by
  refine ⟨?_, ?_, ?_, ?_, ?_, ?_⟩
  · intro hk hne
    rw [processLine_other_some st l k hc hk, if_neg hne]
  · intro hk he
    rw [processLine_other_some st l k hc hk, if_pos he]
  · intro hk
    exact processLine_other_none st l hc hk
  · intro hk hne
    rw [processLineBtn_other_some bst l k hc hk, if_neg hne]
  · intro hk he
    rw [processLineBtn_other_some bst l k hc hk, if_pos he]
  · intro hk
    exact processLineBtn_other_none bst l hc hk

/-- C6 amended witness: a marker-only line is dropped by the render parser
(its cleaning leaves nothing) but appended as an empty question by the
button parser, whose test looks at the raw line. -/
theorem C6_question_cleaning_amended_witness :
    processLine
      { title := "t"
        instructions := ""
        tips := ""
        sections := [("Part A", [])]
        currentKey := some "Part A" } "1. " =
      { title := "t"
        instructions := ""
        tips := ""
        sections := [("Part A", [])]
        currentKey := some "Part A" } ∧
    processLineBtn
      { title := "t"
        instructions := ""
        tips := ""
        sections := [("Part A", [])]
        current := some "Part A" } "1. " =
      { title := "t"
        instructions := ""
        tips := ""
        sections := dictAppend [("Part A", [])] "Part A" (stripMarkers "1. ")
        current := some "Part A" } :=
  ⟨(C6_question_cleaning_amended
      { title := "t", instructions := "", tips := "",
        sections := [("Part A", [])], currentKey := some "Part A" }
      { title := "t", instructions := "", tips := "",
        sections := [("Part A", [])], current := some "Part A" }
      "1. " "Part A" (by decide)).2.1 rfl (by decide),
    (C6_question_cleaning_amended
      { title := "t", instructions := "", tips := "",
        sections := [("Part A", [])], currentKey := some "Part A" }
      { title := "t", instructions := "", tips := "",
        sections := [("Part A", [])], current := some "Part A" }
      "1. " "Part A" (by decide)).2.2.2.1 rfl (by decide)⟩

/-- Embedding sanity check: the concrete scenario the spec itself works
out.  The input with TITLE: Space Math, PART A, two numbered questions and
PARENT TIPS: Go slow yields title Space Math, the default instructions,
tips Go slow, Part A with the two cleaned questions, and ten fillers
numbered 3 through 12 under Extra Practice. -/
theorem spec_concrete_scenario :
    render_html_worksheet
      "TITLE: Space Math\nPART A\n1. Count 3 rockets\n2. Add 2+2\nPARENT TIPS: Go slow"
      "Landon" =
      { title := "Space Math"
        instructions := defaultInstructions
        tips := "Go slow"
        sections := [("Part A", ["Count 3 rockets", "Add 2+2"]),
          ("Extra Practice",
            (List.range 10).map (fun i => fillerText (3 + i)))] } := by
  decide

end WorksheetBot
